import Mathlib

/-!
Verification of the egauge-js client library against its specification.

The repository ships two near-identical variants of most modules (a plain
JavaScript version — `egauge.js`, `auth.js`, `utils.js` — and a TypeScript
rewrite — `egauge.ts`, `utils.ts`, `types.ts`).  Both variants are embedded
here, suffixed `_js` and `_ts`.

Modelling conventions:
  * machine numbers are embedded as `Int`/`Rat` (all arithmetic in the
    library is exact apart from IEEE division/rounding, which we model over
    `Rat`);
  * raw register rows arrive as decimal strings and are immediately passed
    through `parseInt`; rows are therefore embedded as `List Int`;
  * the multiplier table `config.json` is external configuration and is
    embedded as a function `String → Option Rat`;
  * `Date.now()` is passed in explicitly as the `now` argument;
  * JWT decoding (`jwt.decode`) is external; its outcome is embedded as the
    inductive `DecodeResult` (decode failure, or a payload with an optional
    numeric `exp` claim);
  * network effects are embedded by passing the two possible HTTP responses
    of a logical request as explicit arguments and recording the issued
    attempts, authenticator invocations and final cached token in a run
    record.
-/

namespace EG

/-- Outcome of `jwt.decode(token, \x7b complete: true \x7d)`: either the decode
fails (returns null / throws), or it yields a payload whose `exp` claim is
either absent or a number (seconds since the Unix epoch). -/
inductive DecodeResult
  | fail
  | payload (exp : Option Int)
deriving DecidableEq

/-- `isTokenExpired` from `utils.js` (src/unnamed/part_000, lines 51-66).
`offset` defaults to 60 at the call sites; `now` stands for `Date.now()`
in milliseconds.  The guard `!decoded.payload.exp` is JavaScript falsiness:
an absent `exp` and a zero `exp` both take the `return true` branch. -/
def isTokenExpired_js (decoded : DecodeResult) (offset now : Int) : Bool :=
  match decoded with
  | .fail => true
  | .payload none => true
  | .payload (some e) =>
      if e = 0 then true
      else decide (now > (e + offset) * 1000)

/-- `isTokenExpired` from `utils.ts` (src/unnamed/part_001, lines 51-67).
When the payload exists but has no `exp` claim, the source computes
`(payload.exp! + offset) * 1000 = NaN` and returns `now > NaN`, which is
false for every `now` (IEEE comparison with NaN); that branch is therefore
embedded as `false`. -/
def isTokenExpired_ts (decoded : DecodeResult) (offset now : Int) : Bool :=
  match decoded with
  | .fail => true
  | .payload none => false
  | .payload (some e) => decide (now > (e + offset) * 1000)

/-- JavaScript `Math.round`: nearest integer, ties toward positive
infinity, i.e. `⌊x + 1/2⌋`. -/
def mathRound (x : ℚ) : ℤ := ⌊x + 1/2⌋

/-- `round` from `utils.js` / `utils.ts` (both variants are identical,
lines 22-30): scale by `10^decimalPlaces`, apply `Math.round`, scale back;
a negative `decimalPlaces` throws. -/
def round (x : ℚ) (d : ℤ) : Except String ℚ :=
  if d < 0 then
    .error "You must provide a positive integer for decimal places"
  else
    .ok ((mathRound (x * (10 : ℚ) ^ d) : ℚ) / (10 : ℚ) ^ d)

/-- `round` applied with the default `decimalPlaces = 6`, as every call
site in the converters does; extracted as a total function. -/
def round6 (x : ℚ) : ℚ :=
  ((mathRound (x * (10 : ℚ) ^ (6 : ℕ)) : ℚ) / (10 : ℚ) ^ (6 : ℕ))

/-- `round` with the default argument agrees with `round6`. -/
theorem round_six_eq (x : ℚ) : round x 6 = .ok (round6 x) := by
  simp [round, round6]
  norm_num

/-- Modelled from the spec: "round to a configurable number of decimal
places ... using standard round-half-away-from-zero on the scaled value"
(spec section 4.5, Rounding rule).  Ties are rounded away from zero. -/
def specHalfAway (x : ℚ) : ℤ :=
  if 0 ≤ x then ⌊x + 1/2⌋ else -⌊-x + 1/2⌋

/-- Modelled from the spec: the full rounding rule of spec section 4.5
with round-half-away-from-zero in place of `Math.round`. -/
def specRound (x : ℚ) (d : ℤ) : ℚ :=
  (specHalfAway (x * (10 : ℚ) ^ d) : ℚ) / (10 : ℚ) ^ d

/-- One entry of `RegisterResponse.registers` (src/src/types.ts lines 3-9);
only the fields the converters read are kept. -/
structure Register where
  name : String
  type : String
deriving DecidableEq

/-- One entry of `RegisterResponse.ranges` (src/src/types.ts lines 10-14).
`ts` is a decimal string in the wire format and is read through
`parseInt`; each row is a sequence of decimal counter strings, likewise
read element-wise through `parseInt`, so both are embedded as integers.
Rows are newest-first as returned by the device. -/
structure RegisterRange where
  ts : ℤ
  delta : ℤ
  rows : List (List ℤ)
deriving DecidableEq

/-- The register-read response (src/src/types.ts lines 1-15). -/
structure RegisterResponse where
  registers : List Register
  ranges : List RegisterRange
deriving DecidableEq

/-- Lookup in the `config.json` multiplier table.  The spec (section 3)
makes a missing entry a non-recoverable configuration error; theorems that
depend on the table assume membership explicitly. -/
def multD (mult : String → Option ℚ) (t : String) : ℚ := (mult t).getD 0

/-- `getValuesAtTime` from `egauge.js` (lines 102-124); the TypeScript
`getRegistersAtTime` (src/src/types.ts lines 190-222) performs the same
computation.  `rows[0] ?? new Array(regCount).fill(0)` is `headD` with an
all-zeros default; `rows[1] ?? end` is `getD 1` with the end row as
default.  The output preserves the register order of the response. -/
def getValuesAtTime (mult : String → Option ℚ) (data : RegisterResponse)
    (interval : ℚ) : List (String × ℚ) :=
  let rows := (data.ranges.headD ⟨0, 0, []⟩).rows
  let regCount := data.registers.length
  let endRow := rows.headD (List.replicate regCount 0)
  let startRow := rows.getD 1 endRow
  (List.range regCount).map (fun i =>
    let reg := data.registers.getD i ⟨"", ""⟩
    let diff : ℤ := endRow.getD i 0 - startRow.getD i 0
    (reg.name, round6 (((diff : ℚ) / interval) * multD mult reg.type)))

/-- Result element of the TypeScript `getValuesForRange`
(src/src/types.ts lines 280-283). -/
structure TimedRegisters where
  time : ℤ
  registers : List (String × ℚ)
deriving DecidableEq

/-- Loop body of the TypeScript `getValuesForRange` (src/src/types.ts
lines 263-284) for pair index `i`: rows `i` (newer) and `i + 1` (older)
are differenced, scaled by the range delta and the type multiplier, and
tagged with the timestamp of the newer row. -/
def rangeEntry (mult : String → Option ℚ) (registers : List Register)
    (rows : List (List ℤ)) (ts delta : ℤ) (i : ℕ) : TimedRegisters :=
  let firstRow := rows.getD (i + 1) []
  let secondRow := rows.getD i []
  { time := ts - i * delta
    registers := registers.enum.map (fun p =>
      (p.2.name,
        round6 (((secondRow.getD p.1 0 - firstRow.getD p.1 0 : ℤ) : ℚ)
          / (delta : ℚ) * multD mult p.2.type))) }

/-- `getValuesForRange` from the TypeScript variant (src/src/types.ts
lines 232-290).  `data.ranges?.[0]` / `range?.rows ?? []` become `head?`
with an empty default; a zero row count short-circuits to the empty list;
otherwise the pairs are derived newest-first and reversed.  (The
`interval` parameter of the source is used only to build the URL; the
derivation divides by the range delta.) -/
def getValuesForRange_ts (mult : String → Option ℚ)
    (data : RegisterResponse) : List TimedRegisters :=
  let rows := match data.ranges.head? with
    | some r => r.rows
    | none => []
  let count := rows.length
  if count = 0 then []
  else
    let rng := data.ranges.headD ⟨0, 0, []⟩
    ((List.range (count - 1)).map
      (rangeEntry mult data.registers rows rng.ts rng.delta)).reverse

/-- Inner-loop value of the JavaScript `getValuesForRange` (egauge.js
lines 153-157) for register column `i` and row index `j`:
`round((parseInt(rows[j-1][i]) - parseInt(rows[j][i])) / interval *
multipliers[type])`. -/
def jsVal (mult : String → Option ℚ) (interval : ℚ)
    (rows : List (List ℤ)) (i : ℕ) (t : String) (j : ℕ) : ℚ :=
  round6 ((((rows.getD (j - 1) []).getD i 0
      - (rows.getD j []).getD i 0 : ℤ) : ℚ) / interval * multD mult t)

/-- `getValuesForRange` from the JavaScript variant (egauge.js lines
134-163).  With zero rows and at least one register the source evaluates
`new Array(rowCount - 1) = new Array(-1)`, which throws
`RangeError: Invalid array length`; that is the error branch here.
Otherwise each register's array is filled by the descending loop
`for (j = rowCount - 1; j > 0; j--) values[rowCount - j - 1] = val(j)`,
i.e. position `k` holds `val(rowCount - 1 - k)`. -/
def getValuesForRange_js (mult : String → Option ℚ)
    (data : RegisterResponse) (interval : ℚ) :
    Except String (List (String × List ℚ)) :=
  let rows := (data.ranges.headD ⟨0, 0, []⟩).rows
  let rowCount := rows.length
  if data.registers.length ≠ 0 ∧ rowCount = 0 then
    .error "RangeError: Invalid array length"
  else
    .ok (data.registers.enum.map (fun p =>
      (p.2.name, (List.range (rowCount - 1)).map (fun k =>
        jsVal mult interval rows p.1 p.2.type (rowCount - 1 - k)))))

/-- HTTP method of an issued fetch. -/
inductive Method
  | GET
  | POST
deriving DecidableEq

/-- One fetch issued by the executor: the method, the request URL, the
serialised body (`JSON.stringify(body)`, absent for bodyless calls) and
the bearer token placed in the `Authorization` header. -/
structure Attempt where
  method : Method
  url : String
  body : Option String
  token : String
deriving DecidableEq

/-- An HTTP response as the executor observes it: `ok` (status in the 2xx
range), the status code, and the result of `response.json()` — `none`
when the body fails to parse as JSON. -/
structure HttpResp (β : Type) where
  ok : Bool
  status : Nat
  json : Option β
deriving DecidableEq

/-- Error types of `EGaugeError` (src/src/types.ts lines 378-387). -/
inductive ErrType
  | BAD_REQUEST
  | FORBIDDEN
  | NOT_FOUND
  | SERVER
  | UNKNOWN
deriving DecidableEq

/-- `handleResponseStatus` (src/src/types.ts lines 401-434): map a
non-success status to a typed error kind. -/
def handleResponseStatus (status : Nat) : ErrType :=
  match status with
  | 400 => ErrType.BAD_REQUEST
  | 403 => ErrType.FORBIDDEN
  | 404 => ErrType.NOT_FOUND
  | 500 => ErrType.SERVER
  | _ => ErrType.UNKNOWN

/-- A typed `EGaugeError` carrying the (possibly unparsable) response
body for diagnostics (src/src/types.ts lines 378-387). -/
structure EGaugeError (β : Type) where
  etype : ErrType
  data : Option β
deriving DecidableEq

/-- Failure of the JavaScript executor (egauge.js): either
`response.json()` rejected on a success response, or
`new Error(response.statusText)` was thrown for a non-success status
(embedded by its status code). -/
inductive JsError
  | parse
  | http (status : Nat)
deriving DecidableEq

/-- `getToken` from `egauge.js` (lines 36-53).  `st` is the cached
`this.token` (`undefined` initially), `expired` is `isTokenExpired` at
the current instant, `fresh` is the token the Authenticator
(`fetchToken`) would return.  Result: the token used, the new cache, and
the number of Authenticator invocations (0 or 1). -/
def getToken_js (st : Option String) (expired : String → Bool)
    (fresh : String) (refresh : Bool) : String × Option String × Nat :=
  match st with
  | some t =>
      if !refresh && !expired t then (t, some t, 0)
      else (fresh, some fresh, 1)
  | none => (fresh, some fresh, 1)

/-- `getToken` from the TypeScript variant (src/src/types.ts lines
71-84).  The cache check is `this.token && !isTokenExpired(this.token) &&
!refresh`; `this.token` is `string | null`, so an empty string is falsy
and misses the cache. -/
def getToken_ts (st : Option String) (expired : String → Bool)
    (fresh : String) (refresh : Bool) : String × Option String × Nat :=
  match st with
  | some t =>
      if t != "" && !expired t && !refresh then (t, some t, 0)
      else (fresh, some fresh, 1)
  | none => (fresh, some fresh, 1)

instance {ε α : Type} [DecidableEq ε] [DecidableEq α] :
    DecidableEq (Except ε α) := fun a b =>
  match a, b with
  | .ok x, .ok y =>
      if h : x = y then .isTrue (by rw [h]) else .isFalse (by simp [h])
  | .error x, .error y =>
      if h : x = y then .isTrue (by rw [h]) else .isFalse (by simp [h])
  | .ok _, .error _ => .isFalse (by simp)
  | .error _, .ok _ => .isFalse (by simp)

/-- A run of the TypeScript executor: the returned value or typed error,
the fetches issued in order, the number of Authenticator invocations, and
the final cached token. -/
structure ExecRun (β : Type) where
  result : Except (EGaugeError β) (Option β)
  attempts : List Attempt
  authCalls : Nat
  finalToken : Option String
deriving DecidableEq

/-- A run of the JavaScript executor. -/
structure ExecRunJs (β : Type) where
  result : Except JsError β
  attempts : List Attempt
  authCalls : Nat
  finalToken : Option String
deriving DecidableEq

/-- `getRequest` from the TypeScript variant (src/src/types.ts lines
93-129).  `fresh1`/`fresh2` are the tokens the Authenticator returns on
its first/second invocation (at most two can occur); `r1` is the response
to the first fetch and `r2` the response to the retry (consumed only when
the first status is 401).  `data = await response.json().catch(() =>
null)` makes a parse failure `none`, returned as-is on success. -/
def getRequest_ts {β : Type} (st : Option String) (expired : String → Bool)
    (fresh1 fresh2 url : String) (r1 r2 : HttpResp β) : ExecRun β :=
  let s1 := getToken_ts st expired fresh1 false
  let a1 : Attempt := ⟨Method.GET, url, none, s1.1⟩
  if r1.ok then
    ⟨Except.ok r1.json, [a1], s1.2.2, s1.2.1⟩
  else if r1.status = 401 then
    let s2 := getToken_ts s1.2.1 expired fresh2 true
    let a2 : Attempt := ⟨Method.GET, url, none, s2.1⟩
    if r2.ok then
      ⟨Except.ok r2.json, [a1, a2], s1.2.2 + s2.2.2, s2.2.1⟩
    else
      ⟨Except.error ⟨handleResponseStatus r2.status, r2.json⟩,
        [a1, a2], s1.2.2 + s2.2.2, s2.2.1⟩
  else
    ⟨Except.error ⟨handleResponseStatus r1.status, r1.json⟩,
      [a1], s1.2.2, s1.2.1⟩

/-- `postRequest` from the TypeScript variant (src/src/types.ts lines
139-182).  `body` is the serialised request body; it is attached to both
fetches.  NOTE: the source's retry fetch (lines 164-170) passes
`method: 'GET'` while still attaching the body — this is preserved
verbatim in the second attempt. -/
def postRequest_ts {β : Type} (st : Option String) (expired : String → Bool)
    (fresh1 fresh2 url body : String) (r1 r2 : HttpResp β) : ExecRun β :=
  let s1 := getToken_ts st expired fresh1 false
  let a1 : Attempt := ⟨Method.POST, url, some body, s1.1⟩
  if r1.ok then
    ⟨Except.ok r1.json, [a1], s1.2.2, s1.2.1⟩
  else if r1.status = 401 then
    let s2 := getToken_ts s1.2.1 expired fresh2 true
    let a2 : Attempt := ⟨Method.GET, url, some body, s2.1⟩
    if r2.ok then
      ⟨Except.ok r2.json, [a1, a2], s1.2.2 + s2.2.2, s2.2.1⟩
    else
      ⟨Except.error ⟨handleResponseStatus r2.status, r2.json⟩,
        [a1, a2], s1.2.2 + s2.2.2, s2.2.1⟩
  else
    ⟨Except.error ⟨handleResponseStatus r1.status, r1.json⟩,
      [a1], s1.2.2, s1.2.1⟩

/-- `getRequest` from the JavaScript variant (egauge.js lines 62-94).
`return await response.json()` has no `.catch`, so a success response
whose body fails to parse rejects the call (`JsError.parse`); a
non-success, non-401 status throws `new Error(response.statusText)`. -/
def getRequest_js {β : Type} (st : Option String) (expired : String → Bool)
    (fresh1 fresh2 url : String) (r1 r2 : HttpResp β) : ExecRunJs β :=
  let s1 := getToken_js st expired fresh1 false
  let a1 : Attempt := ⟨Method.GET, url, none, s1.1⟩
  if r1.ok then
    match r1.json with
    | some d => ⟨Except.ok d, [a1], s1.2.2, s1.2.1⟩
    | none => ⟨Except.error JsError.parse, [a1], s1.2.2, s1.2.1⟩
  else if r1.status = 401 then
    let s2 := getToken_js s1.2.1 expired fresh2 true
    let a2 : Attempt := ⟨Method.GET, url, none, s2.1⟩
    if r2.ok then
      match r2.json with
      | some d => ⟨Except.ok d, [a1, a2], s1.2.2 + s2.2.2, s2.2.1⟩
      | none =>
          ⟨Except.error JsError.parse, [a1, a2], s1.2.2 + s2.2.2, s2.2.1⟩
    else
      ⟨Except.error (JsError.http r2.status),
        [a1, a2], s1.2.2 + s2.2.2, s2.2.1⟩
  else
    ⟨Except.error (JsError.http r1.status), [a1], s1.2.2, s1.2.1⟩

/-! Concrete fixtures used by examples and witnesses. -/

/-- The multiplier table of the spec's worked example:
register type `A` scales by 1, type `B` by 2. -/
def exMult : String → Option ℚ
  | "A" => some 1
  | "B" => some 2
  | _ => none

/-- The spec's worked example response: two registers, two rows
`[100, 200]` (newer) then `[80, 150]` (older), interval 60. -/
def exData : RegisterResponse :=
  { registers := [⟨"register_A", "A"⟩, ⟨"register_B", "B"⟩]
    ranges := [⟨1700000000, 60, [[100, 200], [80, 150]]⟩] }

/-- A response with one register and an empty row set. -/
def respZeroRows : RegisterResponse :=
  { registers := [⟨"register_A", "A"⟩]
    ranges := [⟨1700000000, 60, []⟩] }

/-- A response with one register and three rows (newest first). -/
def respThreeRows : RegisterResponse :=
  { registers := [⟨"register_A", "A"⟩]
    ranges := [⟨1700000000, 60, [[300], [200], [100]]⟩] }

/-! Helper lemmas on lists. -/

/-- Mapping `g` over the elements read off by index from `rs` (with any
default) is mapping `g` over `rs`. -/
theorem map_range_getD {α β : Type} (rs : List α) (d : α) (g : α → β) :
    (List.range rs.length).map (fun i => g (rs.getD i d)) = rs.map g := by
  induction rs with
  | nil => simp
  | cons a t ih =>
      rw [List.length_cons, List.range_succ_eq_map, List.map_cons,
        List.map_map]
      simp only [Function.comp_def, List.getD_cons_zero, List.getD_cons_succ]
      rw [ih, List.map_cons]

/-- Filling position `k` with `f (N - k)` is the reverse of filling
position `m` with `f (m + 1)`, over `N` positions. -/
theorem map_range_rev {α : Type} (f : ℕ → α) (N : ℕ) :
    (List.range N).map (fun k => f (N - k))
      = ((List.range N).map (fun m => f (m + 1))).reverse := by
  apply List.ext_getElem
  · simp
  · intro i h1 h2
    simp only [List.getElem_map, List.getElem_range, List.getElem_reverse,
      List.length_map, List.length_range]
    congr 1
    simp only [List.length_map, List.length_range] at h1
    omega

/-! Claim C4. -/

/-- Claim C4 counterexample: the claim "isExpired returns false iff now is
strictly less than (E + o) * 1000" fails on `utils.js` at the boundary:
with `E = 100`, `o = 60`, `now = 160000` the code returns false although
`now < 160000` does not hold; and with `E = 0` (a numeric expiry claim)
the falsy guard makes the code return true although `now = 0 < 60000`. -/
theorem C4_strict_iff_false :
    (isTokenExpired_js (.payload (some 100)) 60 160000 = false
      ∧ ¬((160000 : ℤ) < (100 + 60) * 1000))
    ∧ (isTokenExpired_js (.payload (some 0)) 60 0 = true
      ∧ ((0 : ℤ) < (0 + 60) * 1000)) := by
  decide

/-- Claim C4 (amended): for every token that decodes with a nonzero
numeric expiry claim `E` and every offset `o`, `isTokenExpired` returns
false iff `now ≤ (E + o) * 1000` (non-strict); a zero expiry claim is
treated like an absent one (always expired). -/
theorem C4_not_expired_iff (e o now : ℤ) (he : e ≠ 0) :
    (isTokenExpired_js (.payload (some e)) o now = false
      ↔ now ≤ (e + o) * 1000)
    ∧ isTokenExpired_js (.payload (some 0)) o now = true := by
  refine ⟨?_, by simp [isTokenExpired_js]⟩
  simp [isTokenExpired_js, he, not_lt]

/-- Witness for C4: the amended theorem applied at `E = 100`, `o = 60`,
`now = 150000`. -/
theorem C4_not_expired_iff_witness :
    ((100 : ℤ) ≠ 0)
    ∧ ((isTokenExpired_js (.payload (some 100)) 60 150000 = false
        ↔ (150000 : ℤ) ≤ (100 + 60) * 1000)
      ∧ isTokenExpired_js (.payload (some 0)) 60 150000 = true) :=
  ⟨by decide, C4_not_expired_iff 100 60 150000 (by decide)⟩

/-! Claim C5. -/

/-- Claim C5: an input that fails to decode yields expired = true in both
variants, and a decodable payload without an expiry claim yields true in
`utils.js`; but `utils.ts` returns FALSE in that case (the source
computes `now > (payload.exp! + offset) * 1000 = now > NaN`, which is
false), so the TypeScript variant treats an exp-less token as valid,
contradicting the fail-safe the spec states and `utils.js` implements. -/
theorem C5_failsafe_ts_violation :
    isTokenExpired_js DecodeResult.fail 60 0 = true
    ∧ isTokenExpired_js (DecodeResult.payload none) 60 0 = true
    ∧ isTokenExpired_ts DecodeResult.fail 60 0 = true
    ∧ isTokenExpired_ts (DecodeResult.payload none) 60 0 = false := by
  decide

/-! Claim C9. -/

/-- Claim C9 counterexample: `round` does not use
round-half-away-from-zero: at `x = -1/2`, `d = 0` the code
(`Math.round(-0.5) = -0`) yields 0 while half-away-from-zero yields -1. -/
theorem C9_not_half_away :
    round (-1/2) 0 = .ok 0
    ∧ specRound (-1/2) 0 = -1
    ∧ ((0 : ℚ) ≠ -1) := by
  refine ⟨?_, ?_, by norm_num⟩
  · norm_num [round, mathRound]
  · norm_num [specRound, specHalfAway]

/-- Claim C9 (amended): `round(x, d)` rounds the scaled value with
JavaScript `Math.round`, i.e. round-half-toward-positive-infinity, which
agrees with round-half-away-from-zero whenever the scaled value is
nonnegative; `round(1.23456789, 6) == 1.234568` holds, and a negative
decimal-places argument raises a usage error rather than clamping. -/
theorem C9_round_spec (x : ℚ) (d : ℤ) (hd : 0 ≤ d) (hx : 0 ≤ x) :
    round x d = .ok (specRound x d)
    ∧ (∀ y : ℚ, ∀ n : ℤ, n < 0 → round y n
        = .error "You must provide a positive integer for decimal places")
    ∧ round (123456789 / 100000000) 6 = .ok (1234568 / 1000000) := by
  refine ⟨?_, fun y n hn => by simp [round, hn], ?_⟩
  · have hpow : (0 : ℚ) < (10 : ℚ) ^ d := by positivity
    have hxd : 0 ≤ x * (10 : ℚ) ^ d := mul_nonneg hx (le_of_lt hpow)
    rw [round, if_neg (not_lt.mpr hd), specRound, specHalfAway, if_pos hxd]
    rfl
  · norm_num [round, mathRound]

/-- Witness for C9: the amended theorem applied at `x = 0`, `d = 6`. -/
theorem C9_round_spec_witness :
    ((0 : ℤ) ≤ 6) ∧ ((0 : ℚ) ≤ 0)
    ∧ (round 0 6 = .ok (specRound 0 6)
      ∧ (∀ y : ℚ, ∀ n : ℤ, n < 0 → round y n
          = .error "You must provide a positive integer for decimal places")
      ∧ round (123456789 / 100000000) 6 = .ok (1234568 / 1000000)) :=
  ⟨by decide, le_refl 0, C9_round_spec 0 6 (by decide) (le_refl 0)⟩

/-! Claim C1. -/

/-- Claim C1: the claim holds for `getRequest` (a 401 causes exactly one
forced refresh and one retry with the same method, URL and absent body,
and a second non-success surfaces a typed error with no third attempt),
but it FAILS for `postRequest`: the source's retry fetch passes
`method: 'GET'` (src/src/types.ts lines 164-170), so the retried call of
a POST is not identical — evaluated here on a 401-then-200 run. -/
theorem C1_retry_shape :
    ((@getRequest_ts ℕ (some "tok") (fun _ => false) "f1" "f2" "url"
        ⟨false, 401, none⟩ ⟨false, 401, none⟩).attempts
      = [⟨Method.GET, "url", none, "tok"⟩, ⟨Method.GET, "url", none, "f2"⟩]
      ∧ (@getRequest_ts ℕ (some "tok") (fun _ => false) "f1" "f2" "url"
          ⟨false, 401, none⟩ ⟨false, 401, none⟩).authCalls = 1
      ∧ (@getRequest_ts ℕ (some "tok") (fun _ => false) "f1" "f2" "url"
          ⟨false, 401, none⟩ ⟨false, 401, none⟩).result
        = .error ⟨ErrType.UNKNOWN, none⟩)
    ∧ (@postRequest_ts ℕ (some "tok") (fun _ => false) "f1" "f2" "url"
        "body" ⟨false, 401, none⟩ ⟨true, 200, some 0⟩).attempts
      = [⟨Method.POST, "url", some "body", "tok"⟩,
         ⟨Method.GET, "url", some "body", "f2"⟩]
    ∧ Method.POST ≠ Method.GET := by
  decide

/-! Claim C6. -/

/-- `getToken` with `refresh = true` always invokes the Authenticator. -/
theorem getToken_js_refresh_calls (st : Option String)
    (expired : String → Bool) (fresh : String) :
    (getToken_js st expired fresh true).2.2 = 1 := by
  cases st <;> simp [getToken_js]

/-- `getToken` invokes the Authenticator at most once. -/
theorem getToken_js_calls_le (st : Option String)
    (expired : String → Bool) (fresh : String) (refresh : Bool) :
    (getToken_js st expired fresh refresh).2.2 ≤ 1 := by
  cases st with
  | none => simp [getToken_js]
  | some t =>
      simp only [getToken_js]
      split <;> simp

/-- The Authenticator invocation count of a `getRequest` run from
`egauge.js`: the initial `getToken()` count, plus one exactly when the
first response is a non-success 401. -/
theorem getRequest_js_authCalls {β : Type} (st : Option String)
    (expired : String → Bool) (f1 f2 url : String) (r1 r2 : HttpResp β) :
    (getRequest_js st expired f1 f2 url r1 r2).authCalls
      = (getToken_js st expired f1 false).2.2
        + (if r1.ok = false ∧ r1.status = 401 then 1 else 0) := by
  obtain ⟨ok1, status1, j1⟩ := r1
  obtain ⟨ok2, status2, j2⟩ := r2
  cases ok1 <;> cases ok2 <;> cases j1 <;> cases j2 <;>
    by_cases h : status1 = 401 <;>
      simp [getRequest_js, h, getToken_js_refresh_calls]

/-- Claim C6 counterexample: a run with an empty token cache whose first
response is 401 performs two Authenticator round trips, refuting "at most
one authentication round trip per logical request". -/
theorem C6_two_auth_calls :
    (@getRequest_js ℕ none (fun _ => false) "t1" "t2" "url"
        ⟨false, 401, none⟩ ⟨true, 200, some 0⟩).authCalls = 2
    ∧ ¬((2 : ℕ) ≤ 1) := by
  decide

/-- Claim C6 (amended): per logical `getRequest`, the Authenticator is
invoked at most twice — at most once by the initial `getToken()` (only on
a cache miss) and at most once by the 401-triggered forced refresh; when
the cached token is present and fresh, it is invoked at most once. -/
theorem C6_auth_bound {β : Type} (st : Option String)
    (expired : String → Bool) (f1 f2 url : String) (r1 r2 : HttpResp β) :
    (getRequest_js st expired f1 f2 url r1 r2).authCalls ≤ 2
    ∧ (∀ t, st = some t → expired t = false →
        (getRequest_js st expired f1 f2 url r1 r2).authCalls ≤ 1) := by
  constructor
  · rw [getRequest_js_authCalls]
    have h := getToken_js_calls_le st expired f1 false
    split <;> omega
  · intro t hst hexp
    subst hst
    rw [getRequest_js_authCalls]
    have h0 : (getToken_js (some t) expired f1 false).2.2 = 0 := by
      simp [getToken_js, hexp]
    rw [h0]
    split <;> omega

/-- Witness for C6: the amended bound applied with a fresh cached token
and a 401-then-200 run (a single forced refresh occurs). -/
theorem C6_auth_bound_witness :
    (@getRequest_js ℕ (some "tok") (fun _ => false) "f1" "f2" "url"
        ⟨false, 401, none⟩ ⟨true, 200, some 0⟩).authCalls ≤ 2
    ∧ (∀ t, (some "tok" : Option String) = some t →
        (fun _ => false : String → Bool) t = false →
        (@getRequest_js ℕ (some "tok") (fun _ => false) "f1" "f2" "url"
            ⟨false, 401, none⟩ ⟨true, 200, some 0⟩).authCalls ≤ 1) :=
  C6_auth_bound (some "tok") (fun _ => false) "f1" "f2" "url"
    ⟨false, 401, none⟩ ⟨true, 200, some 0⟩

/-! Claim C8. -/

/-- Claim C8 counterexample: in the `egauge.js` executor a success (2xx)
response whose body fails to parse is an error outcome
(`response.json()` rejects, there is no `.catch`), not a `null` return. -/
theorem C8_js_parse_error :
    (@getRequest_js ℕ (some "tok") (fun _ => false) "f1" "f2" "url"
        ⟨true, 200, none⟩ ⟨true, 200, none⟩).result
      = .error JsError.parse := by
  decide

/-- Claim C8 (amended): for every success response whose body fails to
parse as JSON, the TypeScript executor (`getRequest` and `postRequest` in
types.ts) returns `null` rather than an error; the legacy JavaScript
executor (`egauge.js`) instead propagates the parse failure as an
error. -/
theorem C8_parse_failure (β : Type) (st : Option String)
    (expired : String → Bool) (f1 f2 url body : String)
    (r1 r2 : HttpResp β) (hok : r1.ok = true) (hjson : r1.json = none) :
    (getRequest_ts st expired f1 f2 url r1 r2).result = .ok none
    ∧ (postRequest_ts st expired f1 f2 url body r1 r2).result = .ok none
    ∧ (getRequest_js st expired f1 f2 url r1 r2).result
      = .error JsError.parse := by
  obtain ⟨ok1, status1, j1⟩ := r1
  subst hok
  subst hjson
  simp [getRequest_ts, postRequest_ts, getRequest_js]

/-- Witness for C8: the amended theorem applied to a concrete 200
response with an unparsable body. -/
theorem C8_parse_failure_witness :
    ((⟨true, 200, none⟩ : HttpResp ℕ).ok = true)
    ∧ ((⟨true, 200, none⟩ : HttpResp ℕ).json = none)
    ∧ ((@getRequest_ts ℕ (some "tok") (fun _ => false) "f1" "f2" "url"
        ⟨true, 200, none⟩ ⟨true, 200, none⟩).result = .ok none
      ∧ (postRequest_ts (some "tok") (fun _ => false) "f1" "f2" "url" "body"
          (⟨true, 200, none⟩ : HttpResp ℕ) ⟨true, 200, none⟩).result = .ok none
      ∧ (getRequest_js (some "tok") (fun _ => false) "f1" "f2" "url"
          (⟨true, 200, none⟩ : HttpResp ℕ) ⟨true, 200, none⟩).result
        = .error JsError.parse) :=
  ⟨rfl, rfl, C8_parse_failure ℕ (some "tok") (fun _ => false) "f1" "f2" "url"
    "body" ⟨true, 200, none⟩ ⟨true, 200, none⟩ rfl rfl⟩

/-! Claim C2. -/

/-- Claim C2: with at least one row, entry `i` of `getValuesAtTime` binds
register `i`'s name to `round((later[i] - earlier[i]) / interval *
multiplier[type])`, where the later row is `rows[0]` and the earlier row
is `rows[1]`, taken identical to the later row when absent; on the spec's
worked example it yields `register_A = round((100-80)/60*1)` and
`register_B = round((200-150)/60*2)`; with exactly one row every diff is
0. -/
theorem C2_value_at_time (mult : String → Option ℚ)
    (data : RegisterResponse) (rng : RegisterRange) (interval : ℚ)
    (later : List ℤ) (rest : List (List ℤ))
    (hr : data.ranges = [rng]) (hrows : rng.rows = later :: rest) :
    (∀ i : ℕ, i < data.registers.length →
      (getValuesAtTime mult data interval).get? i
        = some ((data.registers.getD i ⟨"", ""⟩).name,
            round6 ((((later.getD i 0
                - ((later :: rest).getD 1 later).getD i 0 : ℤ) : ℚ)
              / interval)
              * multD mult (data.registers.getD i ⟨"", ""⟩).type)))
    ∧ (rest = [] →
        getValuesAtTime mult data interval
          = data.registers.map (fun reg =>
              (reg.name, round6 (((0 : ℚ) / interval) * multD mult reg.type))))
    ∧ getValuesAtTime exMult exData 60
        = [("register_A", round6 ((100 - 80) / 60 * 1)),
           ("register_B", round6 ((200 - 150) / 60 * 2))] := by
  refine ⟨?_, ?_, ?_⟩
  · intro i hi
    simp [getValuesAtTime, hr, hrows, List.getElem?_map,
      List.getElem?_range, hi]
  · intro h
    subst h
    simp only [getValuesAtTime, hr, hrows, List.headD_cons,
      List.getD_cons_succ, List.getD_nil, sub_self, Int.cast_zero]
    exact map_range_getD data.registers ⟨"", ""⟩
      (fun reg => (reg.name, round6 (0 / interval * multD mult reg.type)))
  · norm_num [getValuesAtTime, exData, exMult, multD, List.range_succ]

/-- Witness for C2: the theorem applied to the spec's worked example
response. -/
theorem C2_value_at_time_witness :
    (exData.ranges = [⟨1700000000, 60, [[100, 200], [80, 150]]⟩])
    ∧ ((⟨1700000000, 60, [[100, 200], [80, 150]]⟩ : RegisterRange).rows
        = [100, 200] :: [[80, 150]])
    ∧ ((∀ i : ℕ, i < exData.registers.length →
        (getValuesAtTime exMult exData 60).get? i
          = some ((exData.registers.getD i ⟨"", ""⟩).name,
              round6 (((([100, 200].getD i 0
                  - (([100, 200] :: [[80, 150]]).getD 1 [100, 200]).getD i 0
                  : ℤ) : ℚ) / 60)
                * multD exMult (exData.registers.getD i ⟨"", ""⟩).type)))
      ∧ ([[80, 150]] = ([] : List (List ℤ)) →
          getValuesAtTime exMult exData 60
            = exData.registers.map (fun reg =>
                (reg.name, round6 (((0 : ℚ) / 60) * multD exMult reg.type))))
      ∧ getValuesAtTime exMult exData 60
          = [("register_A", round6 ((100 - 80) / 60 * 1)),
             ("register_B", round6 ((200 - 150) / 60 * 2))]) :=
  ⟨rfl, rfl,
    C2_value_at_time exMult exData ⟨1700000000, 60, [[100, 200], [80, 150]]⟩
      60 [100, 200] [[80, 150]] rfl rfl⟩

/-! Claim C3. -/

/-- Claim C3: over `N + 1` rows (newest first) the TypeScript
`getValuesForRange` returns exactly `N` entries and equals the reverse of
the newest-first derivation (`rangeEntry i` for pair `i`), so reversing
the returned series recovers the device's row order; likewise the
JavaScript variant fills each register's `N`-element array with the
reverse of the newest-first values `val(1), ..., val(N)`. -/
theorem C3_range_series_order (mult : String → Option ℚ)
    (data : RegisterResponse) (rng : RegisterRange) (N : ℕ) (interval : ℚ)
    (hr : data.ranges = [rng]) (hN : rng.rows.length = N + 1) :
    (getValuesForRange_ts mult data).length = N
    ∧ (getValuesForRange_ts mult data).reverse
        = (List.range N).map
            (rangeEntry mult data.registers rng.rows rng.ts rng.delta)
    ∧ getValuesForRange_js mult data interval
        = .ok (data.registers.enum.map (fun p =>
            (p.2.name, ((List.range N).map (fun m =>
              jsVal mult interval rng.rows p.1 p.2.type (m + 1))).reverse))) := by
  refine ⟨?_, ?_, ?_⟩
  · simp [getValuesForRange_ts, hr, hN]
  · simp [getValuesForRange_ts, hr, hN]
  · simp only [getValuesForRange_js, hr, List.headD_cons, hN,
      Nat.add_sub_cancel]
    rw [if_neg (by simp)]
    refine congrArg Except.ok (List.map_congr_left fun p _ => ?_)
    exact congrArg (fun l => (p.2.name, l))
      (map_range_rev (jsVal mult interval rng.rows p.1 p.2.type) N)

/-- Witness for C3: the theorem applied to a three-row response
(`N = 2`). -/
theorem C3_range_series_order_witness :
    (respThreeRows.ranges = [⟨1700000000, 60, [[300], [200], [100]]⟩])
    ∧ ((⟨1700000000, 60, [[300], [200], [100]]⟩ : RegisterRange).rows.length
        = 2 + 1)
    ∧ ((getValuesForRange_ts exMult respThreeRows).length = 2
      ∧ (getValuesForRange_ts exMult respThreeRows).reverse
          = (List.range 2).map
              (rangeEntry exMult respThreeRows.registers
                [[300], [200], [100]] 1700000000 60)
      ∧ getValuesForRange_js exMult respThreeRows 60
          = .ok (respThreeRows.registers.enum.map (fun p =>
              (p.2.name, ((List.range 2).map (fun m =>
                jsVal exMult 60 [[300], [200], [100]] p.1 p.2.type
                  (m + 1))).reverse)))) :=
  ⟨rfl, rfl,
    C3_range_series_order exMult respThreeRows
      ⟨1700000000, 60, [[300], [200], [100]]⟩ 2 60 rfl rfl⟩

/-! Claim C7. -/

/-- Claim C7: on a zero-row response the TypeScript `getValuesForRange`
returns the empty series without error, but the JavaScript variant with
at least one register evaluates `new Array(rowCount - 1) = new Array(-1)`
and throws `RangeError: Invalid array length`, contradicting "an empty
series, not an error". -/
theorem C7_zero_rows :
    getValuesForRange_ts exMult respZeroRows = []
    ∧ getValuesForRange_js exMult respZeroRows 60
        = .error "RangeError: Invalid array length" := by
  decide

/-! Claim C10. -/

/-- Claim C10: on a zero-row response `getValuesAtTime` (and the
identical TypeScript `getRegistersAtTime`) substitutes an all-zeros
newest row, the missing earlier row is taken identical to it, and —
the multiplier table covering every register type — every register name
is bound to 0. -/
theorem C10_zero_rows_zero_values (mult : String → Option ℚ)
    (data : RegisterResponse) (rng : RegisterRange) (interval : ℚ)
    (hr : data.ranges = [rng]) (hrows : rng.rows = [])
    (_hint : interval ≠ 0)
    (_hmult : ∀ reg ∈ data.registers, (mult reg.type).isSome) :
    getValuesAtTime mult data interval
      = data.registers.map (fun reg => (reg.name, 0)) := by
  have h0 : round6 0 = 0 := by norm_num [round6, mathRound]
  simp only [getValuesAtTime, hr, hrows, List.headD_cons, List.headD_nil,
    List.getD_nil, sub_self, Int.cast_zero, zero_div, zero_mul, h0]
  exact map_range_getD data.registers ⟨"", ""⟩ (fun reg => (reg.name, 0))

/-- Witness for C10: the theorem applied to a concrete zero-row response
with one register of type `A`. -/
theorem C10_zero_rows_zero_values_witness :
    (respZeroRows.ranges = [⟨1700000000, 60, []⟩])
    ∧ ((⟨1700000000, 60, []⟩ : RegisterRange).rows = [])
    ∧ ((60 : ℚ) ≠ 0)
    ∧ (∀ reg ∈ respZeroRows.registers, (exMult reg.type).isSome)
    ∧ getValuesAtTime exMult respZeroRows 60
        = respZeroRows.registers.map (fun reg => (reg.name, 0)) :=
  ⟨rfl, rfl, by decide, by decide,
    C10_zero_rows_zero_values exMult respZeroRows ⟨1700000000, 60, []⟩ 60
      rfl rfl (by decide) (by decide)⟩

end EG
